import Mathlib

/-!
Shallow embedding of the Delta Operating System message router
(`src/.github/kernel_mock.py`, function `handle_connection`) and the
heritage node handlers (`src/heritage_node_full.py`), together with
proofs settling the specification claims about them.
-/

namespace DeltaOS

mutual
/-- JSON values, the wire format of envelopes. Numbers are modelled as
integers (the envelopes the router and node inspect never carry
fractional numbers). -/
inductive Json where
  | null : Json
  | bool : Bool → Json
  | num : Int → Json
  | str : String → Json
  | arr : JList → Json
  | obj : JFields → Json
  deriving DecidableEq

/-- A JSON array's elements. -/
inductive JList where
  | nil : JList
  | cons : Json → JList → JList
  deriving DecidableEq

/-- A JSON object's fields, in insertion order with unique keys, as a
Python dict. -/
inductive JFields where
  | nil : JFields
  | cons : String → Json → JFields → JFields
  deriving DecidableEq
end

/-- Build a JSON array from a Lean list. -/
def JList.ofList : List Json → JList
  | [] => .nil
  | x :: xs => .cons x (JList.ofList xs)

/-- Build a JSON object from a Lean list of fields. -/
def JFields.ofList : List (String × Json) → JFields
  | [] => .nil
  | (k, v) :: xs => .cons k v (JFields.ofList xs)

/-- Shorthand for a concrete JSON object. -/
def jobj (l : List (String × Json)) : Json :=
  .obj (JFields.ofList l)

/-- Shorthand for a concrete JSON array. -/
def jarr (l : List Json) : Json :=
  .arr (JList.ofList l)

/-- `fields.get(key)`: first field with this key, if any. -/
def JFields.get : JFields → String → Option Json
  | .nil, _ => none
  | .cons k v rest, key => if k = key then some v else JFields.get rest key

/-- `d[key] = v` on a Python dict: overwrite in place, else append. -/
def JFields.set : JFields → String → Json → JFields
  | .nil, k, v => .cons k v .nil
  | .cons k' v' rest, k, v =>
    if k' = k then .cons k v rest else .cons k' v' (JFields.set rest k v)

def JList.isNil : JList → Bool
  | .nil => true
  | .cons _ _ => false

def JFields.isNil : JFields → Bool
  | .nil => true
  | .cons _ _ _ => false

/-- `msg.get(k)` on a JSON value; `none` when the key is absent or the
value is not an object. -/
def jget : Json → String → Option Json
  | .obj fs, k => fs.get k
  | _, _ => none

/-- Python truthiness of a JSON value: `None`, `False`, `0`, `""`, `[]`
and the empty dict are falsy, everything else truthy. -/
def jtruthy : Json → Bool
  | .null => false
  | .bool b => b
  | .num n => n != 0
  | .str s => s != ""
  | .arr xs => !xs.isNil
  | .obj fs => !fs.isNil

/-- Python truthiness of `d.get(k)`: a missing key is falsy. -/
def truthyOpt : Option Json → Bool
  | none => false
  | some j => jtruthy j

/-- A Python `None` placed in a JSON object serializes to `null`. -/
def optJson : Option Json → Json
  | none => .null
  | some j => j

/-- Python `x or y` for `x` a dict lookup: `x` when truthy, else `y`. -/
def pyOr (x : Option Json) (y : Json) : Json :=
  match x with
  | none => y
  | some j => if jtruthy j then j else y

/-- A connection handle (one websocket peer). -/
abbrev Conn := Nat

/-- The module-level `REGISTERED_NODES` dict, `node_id -> websocket`,
as an association list with the dict's insertion-order semantics. -/
abbrev Registry := List (Json × Conn)

/-- `REGISTERED_NODES.get(k)`. -/
def dictGet : Registry → Json → Option Conn
  | [], _ => none
  | (k', v') :: rest, k => if k' = k then some v' else dictGet rest k

/-- `REGISTERED_NODES[k] = v`: overwrite in place, else append. -/
def dictSet : Registry → Json → Conn → Registry
  | [], k, v => [(k, v)]
  | (k', v') :: rest, k, v =>
    if k' = k then (k, v) :: rest else (k', v') :: dictSet rest k v

/-- `REGISTERED_NODES.pop(k, None)`. -/
def dictPop : Registry → Json → Registry
  | [], _ => []
  | (k', v') :: rest, k =>
    if k' = k then rest else (k', v') :: dictPop rest k

/-- The error envelope for a malformed registration. -/
def errMissingNodeId : Json :=
  jobj [("type", .str "error"), ("reason", .str "missing_node_id")]

/-- The acknowledgement envelope for a successful registration. -/
def registerAck (nid : Json) : Json :=
  jobj [("type", .str "register_ack"), ("node_id", nid)]

/-- The error envelope for a directed send whose target id is unknown. -/
def errNodeNotRegistered (tgt : Json) : Json :=
  jobj [("type", .str "error"), ("reason", .str "node_not_registered"),
        ("node_id", tgt)]

/-- The error envelope for a failed forward to a resolved target. -/
def errForwardFailed (details : String) : Json :=
  jobj [("type", .str "error"), ("reason", .str "forward_failed"),
        ("details", .str details)]

/-- `msg.get("payload", msg)`: the value actually forwarded. -/
def forwardBody (msg : Json) : Json :=
  (jget msg "payload").getD msg

/-- The broadcast loop of `handle_connection`: iterate over a snapshot of
the registry, pop entries whose websocket is closed from the live
registry, and send the forward body to each remaining entry. Returns the
updated registry and the sends in iteration order. -/
def broadcastLoop (closed : Conn → Bool) (fwd : Json) :
    List (Json × Conn) → Registry → Registry × List (Conn × Json)
  | [], reg => (reg, [])
  | (nid, w) :: rest, reg =>
    if closed w then broadcastLoop closed fwd rest (dictPop reg nid)
    else
      let r := broadcastLoop closed fwd rest reg
      (r.1, (w, fwd) :: r.2)

/-- One iteration of the router's receive loop: the effect of one parsed
envelope `msg` arriving from connection `c` with registry `reg`, where
`closed` tells which websockets are closed at that instant (a send to a
closed websocket raises, which surfaces as `forward_failed` on the
directed path and prunes the entry on the broadcast path). Returns the
new registry and the list of `(recipient, value)` sends. -/
def routerStep (closed : Conn → Bool) (reg : Registry) (c : Conn)
    (msg : Json) : Registry × List (Conn × Json) :=
  if jget msg "type" = some (.str "register_node") then
    match jget msg "node_id" with
    | some nid =>
      if jtruthy nid then (dictSet reg nid c, [(c, registerAck nid)])
      else (reg, [(c, errMissingNodeId)])
    | none => (reg, [(c, errMissingNodeId)])
  else
    match jget msg "to" with
    | some tgt =>
      if jtruthy tgt then
        match dictGet reg tgt with
        | some target =>
          if closed target then
            (reg, [(c, errForwardFailed "connection closed")])
          else (reg, [(target, forwardBody msg)])
        | none => (reg, [(c, errNodeNotRegistered tgt)])
      else broadcastLoop closed (forwardBody msg) reg reg
    | none => broadcastLoop closed (forwardBody msg) reg reg

/-- The `finally` cleanup of `handle_connection`: remove every registry
entry whose websocket is this connection. -/
def cleanupConn (reg : Registry) (c : Conn) : Registry :=
  reg.filter (fun e => !(e.2 == c))

/-- An observable event at the router: an envelope received from a
connection (with the closed-socket state at that instant), or a
connection closing. -/
inductive Event where
  | recv (c : Conn) (closed : Conn → Bool) (msg : Json)
  | disconnect (c : Conn)

/-- The router run over a sequence of events, from a given registry:
final registry and all sends in order. -/
def routerRun : Registry → List Event → Registry × List (Conn × Json)
  | reg, [] => (reg, [])
  | reg, .recv c closed msg :: rest =>
    let r := routerStep closed reg c msg
    let t := routerRun r.1 rest
    (t.1, r.2 ++ t.2)
  | reg, .disconnect c :: rest => routerRun (cleanupConn reg c) rest

/-! ## Heritage node (`src/heritage_node_full.py`) -/

/-- `respond_error`: the common error envelope sent back by the heritage
node. The node's configured identity (`NODE_NAME`, environment-derived)
is the `nodeName` parameter. A missing `request_id` serializes to
`null`; a falsy `details` is replaced by the empty object. -/
def respondError (nodeName : String) (requestId : Option Json)
    (reason : String) (details : Json) : Json :=
  jobj [("type", .str "error"), ("request_id", optJson requestId),
        ("node_id", .str nodeName), ("status", .str "error"),
        ("reason", .str reason),
        ("details", if jtruthy details then details else jobj [])]

/-- The external record store as the heritage node's query handler sees
it: `getArtifact` is `supabase_get_by_id("artifacts", id)` (`.ok none`
when the response carries no data, `.error` when the call raises) and
`selectAssets` is `supabase_select("assets", artifact_id = id)` (rows,
with a data-less response folded to `[]` as in the source). -/
structure Store where
  getArtifact : Json → Except String (Option Json)
  selectAssets : Json → Except String (List Json)

/-- `handle_query_artifact`: replies sent on the websocket for one
`query_artifact` envelope. Exceptions raised by the store calls are the
`.error` cases and surface as `internal_error`, as in the handler's
`except` branch. -/
def handleQueryArtifact (nodeName : String) (store : Store) (msg : Json) :
    List Json :=
  let requestId := jget msg "request_id"
  let q := (jget msg "q").getD (jobj [])
  match jget q "id" with
  | none =>
    [respondError nodeName requestId "bad_request"
      (jobj [("message", .str "artifact id required")])]
  | some aid =>
    if !(jtruthy aid) then
      [respondError nodeName requestId "bad_request"
        (jobj [("message", .str "artifact id required")])]
    else
      match store.getArtifact aid with
      | .error e =>
        [respondError nodeName requestId "internal_error"
          (jobj [("error", .str e)])]
      | .ok none =>
        [respondError nodeName requestId "not_found"
          (jobj [("artifact_id", aid)])]
      | .ok (some artifact) =>
        match store.selectAssets aid with
        | .error e =>
          [respondError nodeName requestId "internal_error"
            (jobj [("error", .str e)])]
        | .ok assets =>
          match artifact with
          | .obj fs =>
            [jobj [("type", .str "query_response"),
                   ("request_id", optJson requestId),
                   ("node_id", .str nodeName), ("status", .str "ok"),
                   ("artifact", .obj (fs.set "assets" (jarr assets)))]]
          | _ =>
            [respondError nodeName requestId "internal_error"
              (jobj [("error", .str "artifact row is not an object")])]

/-- The record-store state threaded through one `ingest_artifact`: the
`(table, row)` pairs persisted so far, in insertion order, and the index
of the next insert call (used to inject a failure at a chosen call). -/
structure InsertState where
  rows : List (String × Json)
  calls : Nat

/-- `supabase_insert(table, row)` with fault injection: call number `i`
raises the message `fails i` when that is `some`; otherwise the row is
appended to the persisted rows. A raised insert persists nothing for
that call, but everything already inserted stays. -/
def doInsert (fails : Nat → Option String) (st : InsertState)
    (table : String) (row : Json) :
    Except (String × InsertState) InsertState :=
  match fails st.calls with
  | some e => .error (e, ⟨st.rows, st.calls + 1⟩)
  | none => .ok ⟨st.rows ++ [(table, row)], st.calls + 1⟩

/-- The generated identifiers and timestamp of one `ingest_artifact`
call: `uuid.uuid4().hex` draws and `datetime.utcnow()`, made explicit. -/
structure Gen where
  artifactId : String
  assetId : Nat → String
  consentId : String
  now : String

/-- One asset row built inside the ingest loop. -/
def assetRow (gen : Gen) (i : Nat) (artifactId : Json) (now : String)
    (a : Json) : Json :=
  jobj [("id", pyOr (jget a "id") (.str (gen.assetId i))),
        ("artifact_id", artifactId),
        ("bucket", optJson (jget a "bucket")),
        ("path", optJson (jget a "path")),
        ("type", optJson (jget a "type")),
        ("label", optJson (jget a "label")),
        ("created_at", .str now)]

/-- The `for a in assets` loop of `handle_ingest_artifact`: insert each
asset row in order, accumulating `assets_inserted`; the first raised
insert aborts the loop with everything prior persisted. -/
def insertAssets (fails : Nat → Option String) (gen : Gen)
    (artifactId : Json) (now : String) :
    JList → Nat → InsertState → List Json →
    Except (String × InsertState) (InsertState × List Json)
  | .nil, _, st, acc => .ok (st, acc)
  | .cons a rest, i, st, acc =>
    let row := assetRow gen i artifactId now a
    match doInsert fails st "assets" row with
    | .error e => .error e
    | .ok st' => insertAssets fails gen artifactId now rest (i + 1) st' (acc ++ [row])

/-- `handle_ingest_artifact`: starting from the persisted rows `rows0`,
returns the persisted rows afterwards and the replies sent. Any raised
insert is caught by the handler's `except` branch and answered with
`internal_error`; rows inserted before the failure are not rolled back.
A present non-array `assets` value (which in Python raises while being
iterated or dereferenced) is folded into the same `internal_error`
path. -/
def handleIngestArtifact (nodeName : String) (fails : Nat → Option String)
    (gen : Gen) (rows0 : List (String × Json)) (msg : Json) :
    List (String × Json) × List Json :=
  let requestId := jget msg "request_id"
  let payload := (jget msg "artifact").getD (jobj [])
  let consent := (jget msg "consent").getD (jobj [])
  let artifactId := pyOr (jget payload "id") (.str gen.artifactId)
  let now := gen.now
  let artifactRow := jobj [("id", artifactId),
    ("title", optJson (jget payload "title")),
    ("language", (jget payload "language").getD (.str "yoruba")),
    ("summary", optJson (jget payload "summary")),
    ("collection_id", optJson (jget payload "collection_id")),
    ("created_at", .str now),
    ("metadata", (jget payload "metadata").getD (jobj [])),
    ("provenance", (jget payload "provenance").getD (jobj []))]
  let internalErr := fun (e : String) =>
    respondError nodeName requestId "internal_error" (jobj [("error", .str e)])
  match doInsert fails ⟨rows0, 0⟩ "artifacts" artifactRow with
  | .error (e, st) => (st.rows, [internalErr e])
  | .ok st1 =>
    match (jget payload "assets").getD (jarr []) with
    | .arr xs =>
      match insertAssets fails gen artifactId now xs 0 st1 [] with
      | .error (e, st) => (st.rows, [internalErr e])
      | .ok (st2, inserted) =>
        let finish := fun (st : InsertState) =>
          (st.rows,
           [jobj [("type", .str "ingest_response"),
                  ("request_id", optJson requestId),
                  ("node_id", .str nodeName), ("status", .str "ok"),
                  ("artifact_id", artifactId), ("assets", jarr inserted)]])
        if jtruthy consent then
          let consentRow := jobj
            [("id", pyOr (jget consent "id") (.str gen.consentId)),
             ("artifact_id", artifactId),
             ("consented_by", optJson (jget consent "consented_by")),
             ("consent_record_url", optJson (jget consent "consent_record_url")),
             ("created_at", .str now)]
          match doInsert fails st2 "consents" consentRow with
          | .error (e, st) => (st.rows, [internalErr e])
          | .ok st3 => finish st3
        else finish st2
    | _ => (st1.rows, [internalErr "assets value is not iterable"])

/-! ## Reconnect supervisor (`run` in `src/heritage_node_full.py`) -/

/-- One iteration outcome of the heritage node's `run` loop: the connect
or register call raises (`fail`); connect and register succeed and the
receive loop later raises (`okThenFail`); or connect and register
succeed and the socket closes cleanly, ending the iterator without an
exception (`okClean`). -/
inductive Outcome where
  | fail : Outcome
  | okThenFail : Outcome
  | okClean : Outcome

/-- The sleeps performed by `run` across its iterations, given the
backoff value carried into the first one (`backoff = 1` at start-up).
On an exception the loop sleeps the current backoff and then doubles
it, capping at 60; a successful connection+register cycle resets the
backoff to 1 before anything can raise. -/
def runDelays : Nat → List Outcome → List Nat
  | _, [] => []
  | b, .fail :: rest => b :: runDelays (min (b * 2) 60) rest
  | _, .okThenFail :: rest => 1 :: runDelays (min (1 * 2) 60) rest
  | _, .okClean :: rest => runDelays 1 rest

/-! ## Dictionary and broadcast lemmas -/

theorem dictGet_dictSet_self : ∀ (reg : Registry) (k : Json) (v : Conn),
    dictGet (dictSet reg k v) k = some v
  | [], k, v => by simp [dictSet, dictGet]
  | (k', v') :: rest, k, v => by
    by_cases h : k' = k
    · simp [dictSet, dictGet, h]
    · simp [dictSet, dictGet, h, dictGet_dictSet_self rest k v]

theorem dictGet_dictSet_ne : ∀ (reg : Registry) (k kq : Json) (v : Conn),
    k ≠ kq → dictGet (dictSet reg k v) kq = dictGet reg kq
  | [], k, kq, v, hne => by simp [dictSet, dictGet, hne]
  | (k', v') :: rest, k, kq, v, hne => by
    by_cases h : k' = k
    · simp [dictSet, dictGet, h, hne]
    · by_cases hq : k' = kq
      · simp [dictSet, dictGet, h, hq, Ne.symm hne]
      · simp [dictSet, dictGet, h, hq, dictGet_dictSet_ne rest k kq v hne]

theorem broadcastLoop_sends (closed : Conn → Bool) (fwd : Json) :
    ∀ (snap : List (Json × Conn)) (reg : Registry),
      (broadcastLoop closed fwd snap reg).2 =
        (snap.filter (fun e => !closed e.2)).map (fun e => (e.2, fwd))
  | [], reg => by simp [broadcastLoop]
  | (nid, w) :: rest, reg => by
    by_cases hw : closed w
    · simp [broadcastLoop, hw, broadcastLoop_sends closed fwd rest (dictPop reg nid)]
    · simp [broadcastLoop, hw, broadcastLoop_sends closed fwd rest reg]

theorem dictGet_none_of_not_mem : ∀ (reg : Registry) (nid : Json),
    nid ∉ reg.map Prod.fst → dictGet reg nid = none
  | [], _, _ => rfl
  | (k, v) :: rest, nid, h => by
    simp only [List.map_cons, List.mem_cons, not_or] at h
    have hk : ¬(k = nid) := fun hk => h.1 hk.symm
    simp [dictGet, hk, dictGet_none_of_not_mem rest nid h.2]

theorem dictGet_filter_none : ∀ (reg : Registry) (p : Json × Conn → Bool)
    (nid : Json), dictGet reg nid = none → dictGet (reg.filter p) nid = none
  | [], _, _, _ => rfl
  | (k, v) :: rest, p, nid, h => by
    by_cases hk : k = nid
    · simp [dictGet, hk] at h
    · have hrest : dictGet rest nid = none := by simpa [dictGet, hk] using h
      by_cases hp : p (k, v)
      · simp [List.filter_cons, hp, dictGet, hk,
          dictGet_filter_none rest p nid hrest]
      · simp [List.filter_cons, hp, dictGet_filter_none rest p nid hrest]

theorem dictGet_cleanupConn (reg : Registry) (c : Conn) (nid : Json)
    (hnd : (reg.map Prod.fst).Nodup) (hmap : dictGet reg nid = some c) :
    dictGet (cleanupConn reg c) nid = none := by
  induction reg with
  | nil => simp [dictGet] at hmap
  | cons e rest ih =>
    obtain ⟨k, v⟩ := e
    simp only [List.map_cons, List.nodup_cons] at hnd
    by_cases hk : k = nid
    · subst hk
      have hv : v = c := by simpa [dictGet] using hmap
      subst hv
      have hnone : dictGet rest k = none :=
        dictGet_none_of_not_mem rest k hnd.1
      simpa [cleanupConn, List.filter_cons] using
        dictGet_filter_none rest _ k hnone
    · have hrest : dictGet rest nid = some c := by
        simpa [dictGet, hk] using hmap
      by_cases hv : v = c
      · simpa [cleanupConn, List.filter_cons, hv] using ih hnd.2 hrest
      · simpa [cleanupConn, List.filter_cons, hv, dictGet, hk] using
          ih hnd.2 hrest

theorem cleanupConn_eq_self (reg : Registry) (c : Conn)
    (h : ∀ e ∈ reg, e.2 ≠ c) : cleanupConn reg c = reg := by
  simp only [cleanupConn, List.filter_eq_self]
  intro e he
  simp [h e he]

theorem cleanupConn_idem (reg : Registry) (c : Conn) :
    cleanupConn (cleanupConn reg c) c = cleanupConn reg c := by
  apply cleanupConn_eq_self
  intro e he
  have := List.mem_filter.mp he
  simpa using this.2

/-! ## Claim theorems -/

/-- Claim C4 (confirmed): processing a `register_node` envelope with a
non-empty (truthy) `node_id` stores the mapping from that id to the
registering connection and sends the `register_ack` envelope carrying
that id back to that same connection, so after the step resolving the id
yields the registering connection. -/
theorem claim_C4 (closed : Conn → Bool) (reg : Registry) (c : Conn)
    (msg nid : Json)
    (ht : jget msg "type" = some (.str "register_node"))
    (hn : jget msg "node_id" = some nid)
    (htr : jtruthy nid = true) :
    routerStep closed reg c msg = (dictSet reg nid c, [(c, registerAck nid)]) ∧
    dictGet (routerStep closed reg c msg).1 nid = some c := by
  have hstep : routerStep closed reg c msg =
      (dictSet reg nid c, [(c, registerAck nid)]) := by
    simp [routerStep, ht, hn, htr]
  exact ⟨hstep, by rw [hstep]; exact dictGet_dictSet_self reg nid c⟩

/-- Witness for C4 at a concrete registration envelope. -/
theorem claim_C4_witness :
    jget (jobj [("type", .str "register_node"), ("node_id", .str "a")])
        "type" = some (.str "register_node") ∧
    jget (jobj [("type", .str "register_node"), ("node_id", .str "a")])
        "node_id" = some (.str "a") ∧
    jtruthy (.str "a") = true ∧
    (routerStep (fun _ => false) [] 7
        (jobj [("type", .str "register_node"), ("node_id", .str "a")]) =
      ([( .str "a", 7)], [(7, registerAck (.str "a"))]) ∧
     dictGet (routerStep (fun _ => false) [] 7
        (jobj [("type", .str "register_node"), ("node_id", .str "a")])).1
        (.str "a") = some 7) :=
  ⟨by decide, by decide, by decide,
   claim_C4 (fun _ => false) [] 7 _ (.str "a") (by decide) (by decide)
     (by decide)⟩

set_option linter.unusedVariables false in
/-- Claim C5 (confirmed): when an id already mapped to a prior
connection is re-registered from a different connection, the mapping is
replaced (last write wins), and a directed send to that id is then
delivered only to the newest connection and never to the previously
registered one. -/
theorem claim_C5 (closedR closedS : Conn → Bool) (reg : Registry)
    (cOld cNew cSender : Conn) (m1 m2 nid : Json)
    (hprior : dictGet reg nid = some cOld)
    (hne : cOld ≠ cNew)
    (h1t : jget m1 "type" = some (.str "register_node"))
    (h1n : jget m1 "node_id" = some nid)
    (htr : jtruthy nid = true)
    (h2t : jget m2 "type" ≠ some (.str "register_node"))
    (h2to : jget m2 "to" = some nid)
    (hopen : closedS cNew = false) :
    dictGet (routerStep closedR reg cNew m1).1 nid = some cNew ∧
    (routerStep closedS (routerStep closedR reg cNew m1).1 cSender m2).2 =
      [(cNew, forwardBody m2)] ∧
    ∀ j, (cOld, j) ∉
      (routerStep closedS (routerStep closedR reg cNew m1).1 cSender m2).2 := by
  have hstep1 : (routerStep closedR reg cNew m1).1 = dictSet reg nid cNew := by
    simp [routerStep, h1t, h1n, htr]
  have hres : dictGet (dictSet reg nid cNew) nid = some cNew :=
    dictGet_dictSet_self reg nid cNew
  have hstep2 : (routerStep closedS (dictSet reg nid cNew) cSender m2).2 =
      [(cNew, forwardBody m2)] := by
    simp [routerStep, h2t, h2to, htr, hres, hopen]
  rw [hstep1]
  refine ⟨hres, hstep2, ?_⟩
  intro j hj
  rw [hstep2] at hj
  simp at hj
  exact hne hj.1

/-- Witness for C5: re-register id `"a"` from connection 2 over a
registry mapping it to connection 1, then send to `"a"` from
connection 3. -/
theorem claim_C5_witness :
    dictGet [(Json.str "a", 1)] (.str "a") = some 1 ∧
    (1 : Conn) ≠ 2 ∧
    jget (jobj [("type", .str "register_node"), ("node_id", .str "a")])
        "type" = some (.str "register_node") ∧
    jget (jobj [("type", .str "register_node"), ("node_id", .str "a")])
        "node_id" = some (.str "a") ∧
    jtruthy (.str "a") = true ∧
    jget (jobj [("to", .str "a"), ("payload", .num 9)]) "type" ≠
        some (.str "register_node") ∧
    jget (jobj [("to", .str "a"), ("payload", .num 9)]) "to" =
        some (.str "a") ∧
    ((fun _ => false) : Conn → Bool) 2 = false ∧
    (dictGet (routerStep (fun _ => false) [(Json.str "a", 1)] 2
        (jobj [("type", .str "register_node"), ("node_id", .str "a")])).1
        (.str "a") = some 2 ∧
     (routerStep (fun _ => false)
        (routerStep (fun _ => false) [(Json.str "a", 1)] 2
          (jobj [("type", .str "register_node"), ("node_id", .str "a")])).1
        3 (jobj [("to", .str "a"), ("payload", .num 9)])).2 =
       [(2, forwardBody (jobj [("to", .str "a"), ("payload", .num 9)]))] ∧
     ∀ j, (1, j) ∉
       (routerStep (fun _ => false)
          (routerStep (fun _ => false) [(Json.str "a", 1)] 2
            (jobj [("type", .str "register_node"), ("node_id", .str "a")])).1
          3 (jobj [("to", .str "a"), ("payload", .num 9)])).2) :=
  ⟨by decide, by decide, by decide, by decide, by decide, by decide,
   by decide, rfl,
   claim_C5 (fun _ => false) (fun _ => false) [(Json.str "a", 1)] 1 2 3
     _ _ (.str "a") (by decide) (by decide) (by decide) (by decide)
     (by decide) (by decide) (by decide) rfl⟩

/-- Claim C7 (confirmed): a directed envelope whose truthy `to` resolves
to a registered, open target connection is forwarded as exactly
`msg.get("payload", msg)` — the payload when that field is present, the
whole envelope otherwise — with no field added, removed or changed, and
the registry is untouched. -/
theorem claim_C7 (closed : Conn → Bool) (reg : Registry) (c t : Conn)
    (msg tgt : Json)
    (htype : jget msg "type" ≠ some (.str "register_node"))
    (hto : jget msg "to" = some tgt)
    (htr : jtruthy tgt = true)
    (hres : dictGet reg tgt = some t)
    (hopen : closed t = false) :
    routerStep closed reg c msg = (reg, [(t, (jget msg "payload").getD msg)]) := by
  simp [routerStep, htype, hto, htr, hres, hopen, forwardBody]

/-- Witness for C7: a directed envelope with a `request_id` inside its
payload is forwarded with that payload byte-for-byte intact. -/
theorem claim_C7_witness :
    jget (jobj [("to", .str "n"),
        ("payload", jobj [("request_id", .str "r1"), ("x", .num 5)])])
      "type" ≠ some (.str "register_node") ∧
    jget (jobj [("to", .str "n"),
        ("payload", jobj [("request_id", .str "r1"), ("x", .num 5)])])
      "to" = some (.str "n") ∧
    jtruthy (.str "n") = true ∧
    dictGet [(Json.str "n", 4)] (.str "n") = some 4 ∧
    ((fun _ => false) : Conn → Bool) 4 = false ∧
    routerStep (fun _ => false) [(Json.str "n", 4)] 0
        (jobj [("to", .str "n"),
          ("payload", jobj [("request_id", .str "r1"), ("x", .num 5)])]) =
      ([(Json.str "n", 4)],
       [(4, (jget (jobj [("to", .str "n"),
          ("payload", jobj [("request_id", .str "r1"), ("x", .num 5)])])
          "payload").getD (jobj [("to", .str "n"),
          ("payload", jobj [("request_id", .str "r1"), ("x", .num 5)])]))]) :=
  ⟨by decide, by decide, by decide, by decide, rfl,
   claim_C7 (fun _ => false) [(Json.str "n", 4)] 0 4 _ (.str "n")
     (by decide) (by decide) (by decide) (by decide) rfl⟩

/-- Claim C1 counterexample: connection 0 registers as `"a"` and then
sends an envelope with no `to`; the broadcast loop iterates over every
registered entry with no exclusion of the sender, so connection 0
receives its own payload back, contradicting the claim that a broadcast
is never delivered back to its sender. -/
theorem claim_C1_counterexample :
    dictGet
      (routerRun []
        [Event.recv 0 (fun _ => false)
            (jobj [("type", .str "register_node"), ("node_id", .str "a")]),
         Event.recv 0 (fun _ => false)
            (jobj [("payload", jobj [("hello", .num 1)])])]).1
      (.str "a") = some 0 ∧
    (0, jobj [("hello", .num 1)]) ∈
      (routerRun []
        [Event.recv 0 (fun _ => false)
            (jobj [("type", .str "register_node"), ("node_id", .str "a")]),
         Event.recv 0 (fun _ => false)
            (jobj [("payload", jobj [("hello", .num 1)])])]).2 := by
  decide

/-- Claim C1 (amended): an envelope without a truthy `to` that is not a
registration is broadcast to every currently-registered connection whose
socket is open — including the sending connection itself whenever it is
registered; the router never excludes the sender from the broadcast. -/
theorem claim_C1_amended (closed : Conn → Bool) (reg : Registry) (c : Conn)
    (msg : Json)
    (htype : jget msg "type" ≠ some (.str "register_node"))
    (hto : truthyOpt (jget msg "to") = false) :
    (routerStep closed reg c msg).2 =
      (reg.filter (fun e => !closed e.2)).map
        (fun e => (e.2, forwardBody msg)) ∧
    ∀ nid, (nid, c) ∈ reg → closed c = false →
      (c, forwardBody msg) ∈ (routerStep closed reg c msg).2 := by
  have hsends : (routerStep closed reg c msg).2 =
      (reg.filter (fun e => !closed e.2)).map
        (fun e => (e.2, forwardBody msg)) := by
    cases hj : jget msg "to" with
    | none => simp [routerStep, htype, hj, broadcastLoop_sends]
    | some tgt =>
      have htr : jtruthy tgt = false := by simpa [truthyOpt, hj] using hto
      simp [routerStep, htype, hj, htr, broadcastLoop_sends]
  refine ⟨hsends, ?_⟩
  intro nid hmem hopen
  rw [hsends]
  exact List.mem_map.mpr ⟨(nid, c), List.mem_filter.mpr ⟨hmem, by simp [hopen]⟩, rfl⟩

/-- Witness for the amended C1: a registered sender broadcasts and
appears among the recipients. -/
theorem claim_C1_amended_witness :
    jget (jobj [("payload", .num 3)]) "type" ≠
        some (.str "register_node") ∧
    truthyOpt (jget (jobj [("payload", .num 3)]) "to") = false ∧
    ((routerStep (fun _ => false) [(Json.str "a", 0), (Json.str "b", 5)] 0
        (jobj [("payload", .num 3)])).2 =
      ([(Json.str "a", 0), (Json.str "b", 5)].filter
          (fun e => !(fun _ => false) e.2)).map
        (fun e => (e.2, forwardBody (jobj [("payload", .num 3)]))) ∧
     ∀ nid, (nid, 0) ∈ [(Json.str "a", 0), (Json.str "b", 5)] →
       (fun _ => false) 0 = false →
       (0, forwardBody (jobj [("payload", .num 3)])) ∈
         (routerStep (fun _ => false) [(Json.str "a", 0), (Json.str "b", 5)]
           0 (jobj [("payload", .num 3)])).2) :=
  ⟨by decide, by decide,
   claim_C1_amended (fun _ => false) [(Json.str "a", 0), (Json.str "b", 5)]
     0 _ (by decide) (by decide)⟩

/-- Claim C2 counterexample: connection 1 is registered as `"n"`;
connection 0 then sends an envelope whose `to` field is present with the
empty-string value, which names no registry entry. The claim requires an
error reply with reason `node_not_registered` to the sender; instead
`if to:` treats the empty string as absent and the envelope is broadcast
(here to connection 1), with no reply of any kind to connection 0. -/
theorem claim_C2_counterexample :
    (routerRun []
      [Event.recv 1 (fun _ => false)
          (jobj [("type", .str "register_node"), ("node_id", .str "n")]),
       Event.recv 0 (fun _ => false)
          (jobj [("to", .str ""), ("payload", .num 7)])]).2 =
      [(1, registerAck (.str "n")), (1, .num 7)] ∧
    (0, errNodeNotRegistered (.str "")) ∉
      (routerRun []
        [Event.recv 1 (fun _ => false)
            (jobj [("type", .str "register_node"), ("node_id", .str "n")]),
         Event.recv 0 (fun _ => false)
            (jobj [("to", .str ""), ("payload", .num 7)])]).2 := by
  decide

/-- Claim C2 (amended): a non-registration envelope whose `to` is
present, truthy (in particular non-empty) and unmatched in the registry
is answered to the sender with the `node_not_registered` error echoing
the requested id, and is never dropped silently; an envelope whose `to`
is present with the empty-string value is instead treated as having no
target and broadcast to the registered connections. -/
theorem claim_C2_amended (closed : Conn → Bool) (reg : Registry) (c : Conn)
    (msg tgt : Json)
    (htype : jget msg "type" ≠ some (.str "register_node"))
    (hto : jget msg "to" = some tgt)
    (htr : jtruthy tgt = true)
    (hmiss : dictGet reg tgt = none) :
    routerStep closed reg c msg = (reg, [(c, errNodeNotRegistered tgt)]) ∧
    ∀ msg2, jget msg2 "type" ≠ some (.str "register_node") →
      jget msg2 "to" = some (.str "") →
      (routerStep closed reg c msg2).2 =
        (reg.filter (fun e => !closed e.2)).map
          (fun e => (e.2, forwardBody msg2)) := by
  constructor
  · simp [routerStep, htype, hto, htr, hmiss]
  · intro msg2 h2t h2to
    simp [routerStep, h2t, h2to, jtruthy, broadcastLoop_sends]

/-- Witness for the amended C2 at a concrete unmatched directed send. -/
theorem claim_C2_amended_witness :
    jget (jobj [("to", .str "ghost"), ("payload", .num 7)]) "type" ≠
        some (.str "register_node") ∧
    jget (jobj [("to", .str "ghost"), ("payload", .num 7)]) "to" =
        some (.str "ghost") ∧
    jtruthy (.str "ghost") = true ∧
    dictGet [(Json.str "n", 1)] (.str "ghost") = none ∧
    (routerStep (fun _ => false) [(Json.str "n", 1)] 0
        (jobj [("to", .str "ghost"), ("payload", .num 7)]) =
      ([(Json.str "n", 1)], [(0, errNodeNotRegistered (.str "ghost"))]) ∧
     ∀ msg2, jget msg2 "type" ≠ some (.str "register_node") →
       jget msg2 "to" = some (.str "") →
       (routerStep (fun _ => false) [(Json.str "n", 1)] 0 msg2).2 =
         ([(Json.str "n", 1)].filter (fun e => !(fun _ => false) e.2)).map
           (fun e => (e.2, forwardBody msg2))) :=
  ⟨by decide, by decide, by decide, by decide,
   claim_C2_amended (fun _ => false) [(Json.str "n", 1)] 0 _ (.str "ghost")
     (by decide) (by decide) (by decide) (by decide)⟩

/-- Claim C3 counterexample: from the empty registry, connection 0 sends
`register_node` for `"a"` and then `register_node` for `"b"`. The
reachable state maps both ids to connection 0, so a connection can map
to two node identities at once, contradicting the claimed invariant. -/
theorem claim_C3_counterexample :
    (routerRun []
      [Event.recv 0 (fun _ => false)
          (jobj [("type", .str "register_node"), ("node_id", .str "a")]),
       Event.recv 0 (fun _ => false)
          (jobj [("type", .str "register_node"), ("node_id", .str "b")])]).1 =
      [(Json.str "a", 0), (Json.str "b", 0)] ∧
    dictGet
      (routerRun []
        [Event.recv 0 (fun _ => false)
            (jobj [("type", .str "register_node"), ("node_id", .str "a")]),
         Event.recv 0 (fun _ => false)
            (jobj [("type", .str "register_node"), ("node_id", .str "b")])]).1
      (.str "a") = some 0 ∧
    dictGet
      (routerRun []
        [Event.recv 0 (fun _ => false)
            (jobj [("type", .str "register_node"), ("node_id", .str "a")]),
         Event.recv 0 (fun _ => false)
            (jobj [("type", .str "register_node"), ("node_id", .str "b")])]).1
      (.str "b") = some 0 ∧
    Json.str "a" ≠ Json.str "b" := by
  decide

/-- Claim C3 (amended): a connection may map to several node identities
at once: two `register_node` envelopes with distinct truthy ids sent
over the same connection leave both ids resolving to that connection;
registering a second id does not remove the first. -/
theorem claim_C3_amended (closed1 closed2 : Conn → Bool) (reg : Registry)
    (c : Conn) (m1 m2 a b : Json)
    (h1t : jget m1 "type" = some (.str "register_node"))
    (h1n : jget m1 "node_id" = some a)
    (h1tr : jtruthy a = true)
    (h2t : jget m2 "type" = some (.str "register_node"))
    (h2n : jget m2 "node_id" = some b)
    (h2tr : jtruthy b = true)
    (hne : a ≠ b) :
    dictGet (routerStep closed2 (routerStep closed1 reg c m1).1 c m2).1 a =
      some c ∧
    dictGet (routerStep closed2 (routerStep closed1 reg c m1).1 c m2).1 b =
      some c := by
  have hstep1 : (routerStep closed1 reg c m1).1 = dictSet reg a c := by
    simp [routerStep, h1t, h1n, h1tr]
  have hstep2 : (routerStep closed2 (dictSet reg a c) c m2).1 =
      dictSet (dictSet reg a c) b c := by
    simp [routerStep, h2t, h2n, h2tr]
  rw [hstep1, hstep2]
  constructor
  · rw [dictGet_dictSet_ne _ b a c (Ne.symm hne)]
    exact dictGet_dictSet_self reg a c
  · exact dictGet_dictSet_self (dictSet reg a c) b c

/-- Witness for the amended C3: ids `"a"` then `"b"` over connection 0. -/
theorem claim_C3_amended_witness :
    jget (jobj [("type", .str "register_node"), ("node_id", .str "a")])
        "type" = some (.str "register_node") ∧
    jget (jobj [("type", .str "register_node"), ("node_id", .str "a")])
        "node_id" = some (.str "a") ∧
    jtruthy (.str "a") = true ∧
    jget (jobj [("type", .str "register_node"), ("node_id", .str "b")])
        "type" = some (.str "register_node") ∧
    jget (jobj [("type", .str "register_node"), ("node_id", .str "b")])
        "node_id" = some (.str "b") ∧
    jtruthy (.str "b") = true ∧
    Json.str "a" ≠ Json.str "b" ∧
    (dictGet
        (routerStep (fun _ => false)
          (routerStep (fun _ => false) [] 0
            (jobj [("type", .str "register_node"),
                   ("node_id", .str "a")])).1
          0 (jobj [("type", .str "register_node"),
                   ("node_id", .str "b")])).1 (.str "a") = some 0 ∧
     dictGet
        (routerStep (fun _ => false)
          (routerStep (fun _ => false) [] 0
            (jobj [("type", .str "register_node"),
                   ("node_id", .str "a")])).1
          0 (jobj [("type", .str "register_node"),
                   ("node_id", .str "b")])).1 (.str "b") = some 0) :=
  ⟨by decide, by decide, by decide, by decide, by decide, by decide,
   by decide,
   claim_C3_amended (fun _ => false) (fun _ => false) [] 0 _ _
     (.str "a") (.str "b") (by decide) (by decide) (by decide) (by decide)
     (by decide) (by decide) (by decide)⟩

/-- Claim C6 (confirmed): the disconnect cleanup removes every node id
mapped to the closing connection (for a registry with unique keys, as a
Python dict guarantees), a subsequent directed send to such an id is
answered with `node_not_registered`, the cleanup is idempotent, and
closing a connection with no registry entries changes nothing. -/
theorem claim_C6 (closed : Conn → Bool) (reg : Registry) (c cs : Conn)
    (nid m2 : Json)
    (hnd : (reg.map Prod.fst).Nodup)
    (hmap : dictGet reg nid = some c)
    (htr : jtruthy nid = true)
    (h2t : jget m2 "type" ≠ some (.str "register_node"))
    (h2to : jget m2 "to" = some nid) :
    dictGet (cleanupConn reg c) nid = none ∧
    routerStep closed (cleanupConn reg c) cs m2 =
      (cleanupConn reg c, [(cs, errNodeNotRegistered nid)]) ∧
    cleanupConn (cleanupConn reg c) c = cleanupConn reg c ∧
    ∀ reg2 : Registry, (∀ e ∈ reg2, e.2 ≠ c) → cleanupConn reg2 c = reg2 := by
  have hnone : dictGet (cleanupConn reg c) nid = none :=
    dictGet_cleanupConn reg c nid hnd hmap
  refine ⟨hnone, ?_, cleanupConn_idem reg c, fun reg2 => cleanupConn_eq_self reg2 c⟩
  simp [routerStep, h2t, h2to, htr, hnone]

/-- Witness for C6: connection 2 registered as `"n"` disconnects; a
later send to `"n"` from connection 0 is answered with the error. -/
theorem claim_C6_witness :
    ([(Json.str "n", 2)].map Prod.fst).Nodup ∧
    dictGet [(Json.str "n", 2)] (.str "n") = some 2 ∧
    jtruthy (.str "n") = true ∧
    jget (jobj [("to", .str "n"), ("payload", .num 1)]) "type" ≠
        some (.str "register_node") ∧
    jget (jobj [("to", .str "n"), ("payload", .num 1)]) "to" =
        some (.str "n") ∧
    (dictGet (cleanupConn [(Json.str "n", 2)] 2) (.str "n") = none ∧
     routerStep (fun _ => false) (cleanupConn [(Json.str "n", 2)] 2) 0
        (jobj [("to", .str "n"), ("payload", .num 1)]) =
      (cleanupConn [(Json.str "n", 2)] 2,
       [(0, errNodeNotRegistered (.str "n"))]) ∧
     cleanupConn (cleanupConn [(Json.str "n", 2)] 2) 2 =
       cleanupConn [(Json.str "n", 2)] 2 ∧
     ∀ reg2 : Registry, (∀ e ∈ reg2, e.2 ≠ 2) → cleanupConn reg2 2 = reg2) :=
  ⟨by decide, by decide, by decide, by decide, by decide,
   claim_C6 (fun _ => false) [(Json.str "n", 2)] 2 0 (.str "n") _
     (by decide) (by decide) (by decide) (by decide) (by decide)⟩

/-- Claim C8 counterexample: a `query_artifact` envelope whose `q.id` is
present with the empty-string value, against a store holding no record
at all. The claim requires a `not_found` reply carrying that id; the
handler's `if not artifact_id` treats the empty string like a missing id
and replies `bad_request` instead. -/
theorem claim_C8_counterexample :
    handleQueryArtifact "heritage-node-1"
        ⟨fun _ => .ok none, fun _ => .ok []⟩
        (jobj [("type", .str "query_artifact"), ("request_id", .str "r1"),
               ("q", jobj [("id", .str "")])]) =
      [respondError "heritage-node-1" (some (.str "r1")) "bad_request"
        (jobj [("message", .str "artifact id required")])] ∧
    handleQueryArtifact "heritage-node-1"
        ⟨fun _ => .ok none, fun _ => .ok []⟩
        (jobj [("type", .str "query_artifact"), ("request_id", .str "r1"),
               ("q", jobj [("id", .str "")])]) ≠
      [respondError "heritage-node-1" (some (.str "r1")) "not_found"
        (jobj [("artifact_id", .str "")])] := by
  decide

/-- Claim C8 (amended): for `query_artifact`, an absent or falsy (in
particular empty-string) `q.id` is answered `bad_request`; a truthy
`q.id` with no record in the store is answered `not_found` with that id
in `details`; both replies are the common error envelope — type `error`,
echoed `request_id`, the node's id, status `error`, reason and
details. -/
theorem claim_C8_amended (nodeName : String) (store : Store)
    (msg aid : Json) :
    (truthyOpt (jget ((jget msg "q").getD (jobj [])) "id") = false →
      handleQueryArtifact nodeName store msg =
        [respondError nodeName (jget msg "request_id") "bad_request"
          (jobj [("message", .str "artifact id required")])]) ∧
    (jget ((jget msg "q").getD (jobj [])) "id" = some aid →
      jtruthy aid = true →
      store.getArtifact aid = .ok none →
      handleQueryArtifact nodeName store msg =
        [respondError nodeName (jget msg "request_id") "not_found"
          (jobj [("artifact_id", aid)])]) := by
  constructor
  · intro h
    cases hid : jget ((jget msg "q").getD (jobj [])) "id" with
    | none => simp [handleQueryArtifact, hid]
    | some a =>
      have ha : jtruthy a = false := by simpa [truthyOpt, hid] using h
      simp [handleQueryArtifact, hid, ha]
  · intro hid htr hstore
    simp [handleQueryArtifact, hid, htr, hstore]

/-- Witness for the amended C8: one empty-id request and one request for
the missing id `"a1"`, both against the empty store. -/
theorem claim_C8_amended_witness :
    (truthyOpt (jget ((jget (jobj [("request_id", .str "r1"),
          ("q", jobj [("id", .str "")])]) "q").getD (jobj [])) "id") =
        false ∧
     handleQueryArtifact "hn" ⟨fun _ => .ok none, fun _ => .ok []⟩
        (jobj [("request_id", .str "r1"), ("q", jobj [("id", .str "")])]) =
      [respondError "hn"
        (jget (jobj [("request_id", .str "r1"),
          ("q", jobj [("id", .str "")])]) "request_id") "bad_request"
        (jobj [("message", .str "artifact id required")])]) ∧
    (jget ((jget (jobj [("request_id", .str "r1"),
          ("q", jobj [("id", .str "a1")])]) "q").getD (jobj [])) "id" =
        some (.str "a1") ∧
     jtruthy (.str "a1") = true ∧
     Store.getArtifact ⟨fun _ => .ok none, fun _ => .ok []⟩ (.str "a1") =
        .ok none ∧
     handleQueryArtifact "hn" ⟨fun _ => .ok none, fun _ => .ok []⟩
        (jobj [("request_id", .str "r1"),
               ("q", jobj [("id", .str "a1")])]) =
      [respondError "hn"
        (jget (jobj [("request_id", .str "r1"),
          ("q", jobj [("id", .str "a1")])]) "request_id") "not_found"
        (jobj [("artifact_id", .str "a1")])]) :=
  ⟨⟨by decide,
    (claim_C8_amended "hn" ⟨fun _ => .ok none, fun _ => .ok []⟩
      (jobj [("request_id", .str "r1"), ("q", jobj [("id", .str "")])])
      .null).1 (by decide)⟩,
   ⟨by decide, by decide, rfl,
    (claim_C8_amended "hn" ⟨fun _ => .ok none, fun _ => .ok []⟩
      (jobj [("request_id", .str "r1"), ("q", jobj [("id", .str "a1")])])
      (.str "a1")).2 (by decide) (by decide) rfl⟩⟩

/-- One doubling-with-cap step: starting one failure later multiplies
the power by one more 2 under the cap of 60. -/
theorem min_cap_step (b k : Nat) :
    min (min (b * 2) 60 * 2 ^ k) 60 = min (b * 2 ^ (k + 1)) 60 := by
  rcases Nat.le_total (b * 2) 60 with h | h
  · rw [min_eq_left h, pow_succ]
    ring_nf
  · rw [min_eq_right h]
    have h1 : (1 : ℕ) ≤ 2 ^ k := Nat.one_le_two_pow
    have h2 : 60 ≤ 60 * 2 ^ k := le_mul_of_one_le_right (by norm_num) h1
    have h3 : 60 ≤ b * 2 ^ (k + 1) := by
      calc (60 : ℕ) ≤ b * 2 := h
        _ ≤ b * 2 * 2 ^ k := le_mul_of_one_le_right (Nat.zero_le _) h1
        _ = b * 2 ^ (k + 1) := by rw [pow_succ]; ring
    rw [min_eq_right h2, min_eq_right h3]

/-- The sleep sequence under `n` consecutive failures from backoff `b`:
the k-th sleep is `b * 2^k` capped at 60. -/
theorem runDelays_replicate_fail :
    ∀ (n b : Nat), b ≤ 60 →
      runDelays b (List.replicate n .fail) =
        (List.range n).map (fun k => min (b * 2 ^ k) 60)
  | 0, b, _ => by simp [runDelays]
  | n + 1, b, hb => by
    have ih := runDelays_replicate_fail n (min (b * 2) 60)
      (min_le_right _ _)
    rw [List.replicate_succ]
    simp only [runDelays, ih, List.range_succ_eq_map, List.map_cons,
      List.map_map]
    congr 1
    · rw [pow_zero, mul_one, min_eq_left hb]
    · have hfun : (fun k => min (min (b * 2) 60 * 2 ^ k) 60) =
          fun k => min (b * 2 ^ (k + 1)) 60 :=
        funext fun k => min_cap_step b k
      rw [hfun]
      simp [Function.comp]

/-- Claim C9 (confirmed): the reconnect loop's sleep before failure
number `n` (counting consecutive failures since the last successful
connection+register cycle, which resets the backoff) is
`min(2^(n-1), 60)`; five consecutive failures sleep 1, 2, 4, 8, 16; a
clean cycle resets the backoff to 1 and a cycle that later drops with an
error sleeps 1 and continues from 2; the loop performs every retry with
no maximum-retry cutoff. -/
theorem claim_C9 (n : Nat) :
    runDelays 1 (List.replicate n .fail) =
      (List.range n).map (fun k => min (2 ^ k) 60) ∧
    runDelays 1 (List.replicate 5 .fail) = [1, 2, 4, 8, 16] ∧
    (∀ (b : Nat) (rest : List Outcome),
      runDelays b (.okClean :: rest) = runDelays 1 rest) ∧
    (∀ (b : Nat) (rest : List Outcome),
      runDelays b (.okThenFail :: rest) = 1 :: runDelays 2 rest) ∧
    (runDelays 1 (List.replicate n .fail)).length = n := by
  have h1 := runDelays_replicate_fail n 1 (by norm_num)
  refine ⟨by simpa using h1, by decide, fun b rest => rfl,
    fun b rest => rfl, ?_⟩
  rw [h1]
  simp

/-- Claim C10 (confirmed): `ingest_artifact` is not atomic over the
record store. With the consent insert raising (third insert call), the
handler replies `internal_error` while the artifact row and the asset
row stay persisted; with the asset insert raising (second call), the
artifact row stays persisted. The error reply does not imply the store
is unchanged. -/
theorem claim_C10 (nodeName : String) (rows0 : List (String × Json))
    (gen : Gen) (rid e title bucket path cby : String) :
    (handleIngestArtifact nodeName (fun i => if i = 2 then some e else none)
        gen rows0
        (jobj [("type", .str "ingest_artifact"), ("request_id", .str rid),
          ("artifact", jobj [("title", .str title),
            ("assets", jarr [jobj [("bucket", .str bucket),
                                   ("path", .str path)]])]),
          ("consent", jobj [("consented_by", .str cby)])])).2 =
      [respondError nodeName (some (.str rid)) "internal_error"
        (jobj [("error", .str e)])] ∧
    (handleIngestArtifact nodeName (fun i => if i = 2 then some e else none)
        gen rows0
        (jobj [("type", .str "ingest_artifact"), ("request_id", .str rid),
          ("artifact", jobj [("title", .str title),
            ("assets", jarr [jobj [("bucket", .str bucket),
                                   ("path", .str path)]])]),
          ("consent", jobj [("consented_by", .str cby)])])).1 =
      rows0 ++
        [("artifacts",
          jobj [("id", .str gen.artifactId), ("title", .str title),
                ("language", .str "yoruba"), ("summary", .null),
                ("collection_id", .null), ("created_at", .str gen.now),
                ("metadata", jobj []), ("provenance", jobj [])]),
         ("assets",
          jobj [("id", .str (gen.assetId 0)),
                ("artifact_id", .str gen.artifactId),
                ("bucket", .str bucket), ("path", .str path),
                ("type", .null), ("label", .null),
                ("created_at", .str gen.now)])] ∧
    (handleIngestArtifact nodeName (fun i => if i = 1 then some e else none)
        gen rows0
        (jobj [("type", .str "ingest_artifact"), ("request_id", .str rid),
          ("artifact", jobj [("title", .str title),
            ("assets", jarr [jobj [("bucket", .str bucket),
                                   ("path", .str path)]])]),
          ("consent", jobj [("consented_by", .str cby)])])).2 =
      [respondError nodeName (some (.str rid)) "internal_error"
        (jobj [("error", .str e)])] ∧
    (handleIngestArtifact nodeName (fun i => if i = 1 then some e else none)
        gen rows0
        (jobj [("type", .str "ingest_artifact"), ("request_id", .str rid),
          ("artifact", jobj [("title", .str title),
            ("assets", jarr [jobj [("bucket", .str bucket),
                                   ("path", .str path)]])]),
          ("consent", jobj [("consented_by", .str cby)])])).1 =
      rows0 ++
        [("artifacts",
          jobj [("id", .str gen.artifactId), ("title", .str title),
                ("language", .str "yoruba"), ("summary", .null),
                ("collection_id", .null), ("created_at", .str gen.now),
                ("metadata", jobj []), ("provenance", jobj [])])] := by
  refine ⟨rfl, ?_, rfl, rfl⟩
  show (rows0 ++
      [("artifacts",
        jobj [("id", .str gen.artifactId), ("title", .str title),
              ("language", .str "yoruba"), ("summary", .null),
              ("collection_id", .null), ("created_at", .str gen.now),
              ("metadata", jobj []), ("provenance", jobj [])])]) ++
      [("assets",
        jobj [("id", .str (gen.assetId 0)),
              ("artifact_id", .str gen.artifactId),
              ("bucket", .str bucket), ("path", .str path),
              ("type", .null), ("label", .null),
              ("created_at", .str gen.now)])] = _
  simp

end DeltaOS
